import Mathlib

/-!
Verification of the context / resource lifetime layer of the `accel` GPU
crate.  The native CUDA driver is modelled as an explicit state machine:
`DriverState` holds the per-thread context ctxStack, the set of live native
context handles and bookkeeping logs; `Cuda` is an oracle fixing the
outcome of each kind of native call.  Every operation of the crate is
translated from the Rust source into a pure function
`Cuda → DriverState → ... → Step α`, where `Step` distinguishes normal
return, a recoverable `Result::Err`, and a process-fatal panic.
-/

set_option autoImplicit false
set_option linter.unusedVariables false

namespace Accel

/-- Typed errors surfaced to the caller (`accel::error::AccelError` as used in
`src/accel/src/device.rs`): `DeviceNotFound { id, count }` plus a generic
carrier for a native error code. -/
inductive AccelError where
  | DeviceNotFound (id count : Nat) : AccelError
  | CudaError (code : Nat) : AccelError
deriving DecidableEq, Repr

/-- State of the modelled native driver.  Context and allocation handles are
natural numbers, `0` playing the role of the null pointer.  `ctxStack t` is the
context stack of thread `t` (head = top).  `destroyAttempts`, `freeAttempts`
and `unloadAttempts` record every native teardown call that was issued;
`errorLog` records the error codes that the crate logged and swallowed. -/
structure DriverState where
  deviceCount : Nat
  ctxStack : Nat → List Nat
  liveCtxs : List Nat
  nextPtr : Nat
  hostAllocs : List (Nat × Nat)
  destroyAttempts : List Nat
  freeAttempts : List Nat
  unloadAttempts : List Nat
  errorLog : List Nat

/-- Oracle fixing the outcome of each kind of native driver call: `none`
means the call succeeds, `some e` that it fails with error code `e`.
`deviceName` is the NUL-free byte string the driver would report as the
device name. -/
structure Cuda where
  initFails : Bool
  getCountErr : Option Nat
  deviceGetErr : Option Nat
  getNameErr : Option Nat
  deviceName : List Nat
  createErr : Option Nat
  pushErr : Option Nat
  popErr : Option Nat
  syncErr : Option Nat
  destroyErr : Option Nat
  allocErr : Option Nat
  freeErr : Option Nat
  unloadErr : Option Nat

/-- Outcome of one crate operation: normal return with the new driver state,
a recoverable error (Rust `Result::Err`) with the state at the early return,
or a fatal panic (`panic` / `expect` / failed `assert`), which aborts the
process so no state is observable. -/
inductive Step (α : Type) where
  | ok : DriverState → α → Step α
  | err : DriverState → AccelError → Step α
  | fatal : String → Step α

/-- Replace thread `tid`'s context stack. -/
def DriverState.setStack (st : DriverState) (tid : Nat) (s : List Nat) : DriverState :=
  { st with ctxStack := fun t => if t = tid then s else st.ctxStack t }

/-- Model of the native `cuCtxCreate_v2`: allocates a fresh non-null context
handle and pushes it onto the calling thread's context stack (context
creation implicitly makes the new context current). -/
def cuCtxCreate (o : Cuda) (st : DriverState) (tid : Nat) : Except Nat (DriverState × Nat) :=
  match o.createErr with
  | some e => .error e
  | none =>
      let ptr := st.nextPtr + 1
      .ok ({ st with
              nextPtr := ptr
              liveCtxs := ptr :: st.liveCtxs
              ctxStack := fun t => if t = tid then ptr :: st.ctxStack t else st.ctxStack t }, ptr)

/-- Model of the native `cuCtxPushCurrent_v2`: pushes the handle onto the
calling thread's context stack. -/
def cuCtxPushCurrent (o : Cuda) (st : DriverState) (tid ptr : Nat) : Except Nat DriverState :=
  match o.pushErr with
  | some e => .error e
  | none => .ok (st.setStack tid (ptr :: st.ctxStack tid))

/-- Model of the native `cuCtxPopCurrent_v2`: pops the top of the calling
thread's context stack and returns it; returns the null handle `0` when the
stack is empty. -/
def cuCtxPopCurrent (o : Cuda) (st : DriverState) (tid : Nat) : Except Nat (DriverState × Nat) :=
  match o.popErr with
  | some e => .error e
  | none =>
      match st.ctxStack tid with
      | [] => .ok (st, 0)
      | p :: rest => .ok (st.setStack tid rest, p)

/-- Model of the native `cuCtxSynchronize`: blocks until outstanding work
completes; the oracle decides whether a device-side fault surfaces. -/
def cuCtxSynchronize (o : Cuda) : Except Nat Unit :=
  match o.syncErr with
  | some e => .error e
  | none => .ok ()

/-- Model of the native `cuCtxDestroy_v2`: the attempt is always recorded;
on success the handle stops being live.  Returns the error code if the call
fails. -/
def cuCtxDestroy (o : Cuda) (st : DriverState) (ptr : Nat) : DriverState × Option Nat :=
  let st1 := { st with destroyAttempts := ptr :: st.destroyAttempts }
  match o.destroyErr with
  | some e => (st1, some e)
  | none => ({ st1 with liveCtxs := st1.liveCtxs.erase ptr }, none)

/-- Model of the native `cuMemAllocHost_v2`: on success returns a fresh
non-null pointer and records the requested byte size. -/
def cuMemAllocHost (o : Cuda) (st : DriverState) (bytes : Nat) : Except Nat (DriverState × Nat) :=
  match o.allocErr with
  | some e => .error e
  | none =>
      let ptr := st.nextPtr + 1
      .ok ({ st with nextPtr := ptr, hostAllocs := (ptr, bytes) :: st.hostAllocs }, ptr)

/-- Model of the native `cuMemFreeHost`: the attempt is always recorded;
returns the error code if the call fails. -/
def cuMemFreeHost (o : Cuda) (st : DriverState) (ptr : Nat) : DriverState × Option Nat :=
  let st1 := { st with freeAttempts := ptr :: st.freeAttempts }
  match o.freeErr with
  | some e => (st1, some e)
  | none => (st1, none)

/-- Model of the native `cuModuleUnload`: the attempt is always recorded;
returns the error code if the call fails. -/
def cuModuleUnload (o : Cuda) (st : DriverState) (ptr : Nat) : DriverState × Option Nat :=
  let st1 := { st with unloadAttempts := ptr :: st.unloadAttempts }
  match o.unloadErr with
  | some e => (st1, some e)
  | none => (st1, none)

/-- `Device` (src/accel/src/device.rs): identifies a physical accelerator by
its native index. -/
structure Device where
  device : Nat
deriving DecidableEq, Repr

/-- Owned handler for a CUDA context (`struct Context` in
src/accel/src/device.rs): wraps one native context handle. -/
structure Context where
  ptr : Nat
deriving DecidableEq, Repr

/-- Non-owned handler for a CUDA context (`struct ContextRef`): same handle,
no ownership. -/
structure ContextRef where
  ptr : Nat
deriving DecidableEq, Repr

namespace ContextImpl

/-- `ContextImpl::push` (device.rs:174-178): native push, any failure is
fatal (`expect "Failed to push context"`). -/
def push (o : Cuda) (st : DriverState) (tid ptr : Nat) : Step Unit :=
  match cuCtxPushCurrent o st tid ptr with
  | .error _ => .fatal "Failed to push context"
  | .ok st1 => .ok st1 ()

/-- `ContextImpl::pop` (device.rs:181-187): native pop (failure fatal), then
a null popped handle is fatal, then the popped handle must equal the
expected one (`assert` with message "Pop must return same pointer"). -/
def pop (o : Cuda) (st : DriverState) (tid ptr : Nat) : Step Unit :=
  match cuCtxPopCurrent o st tid with
  | .error _ => .fatal "Failed to pop current context"
  | .ok (st1, p) =>
      if p = 0 then .fatal "No current context"
      else if p = ptr then .ok st1 ()
      else .fatal "Pop must return same pointer"

/-- `ContextImpl::sync` (device.rs:198-205): push, `cuCtxSynchronize` with
`?` (early return on error), pop.  The translation preserves the control
flow of the source exactly: on a synchronize error the pop is not reached. -/
def sync (o : Cuda) (st : DriverState) (tid ptr : Nat) : Step Unit :=
  match push o st tid ptr with
  | .fatal m => .fatal m
  | .err st1 e => .err st1 e
  | .ok st1 _ =>
      match cuCtxSynchronize o with
      | .error e => .err st1 (AccelError.CudaError e)
      | .ok _ =>
          match pop o st1 tid ptr with
          | .fatal m => .fatal m
          | .err st2 e => .err st2 e
          | .ok st2 _ => .ok st2 ()

end ContextImpl

/-- `Context::create` (device.rs:223-238): native create (failure fatal),
panic on a null handle, then immediately `ctx.pop()` so the new context
leaves the calling thread's stack. -/
def Context.create (o : Cuda) (st : DriverState) (tid device : Nat) : Step Context :=
  match cuCtxCreate o st tid with
  | .error _ => .fatal "Failed to create a new context"
  | .ok (st1, ptr) =>
      if ptr = 0 then .fatal "Cannot crate a new context"
      else
        match ContextImpl.pop o st1 tid ptr with
        | .fatal m => .fatal m
        | .err st2 e => .err st2 e
        | .ok st2 _ => .ok st2 ⟨ptr⟩

/-- `Device::create_context` (device.rs:74-76): `Arc::new(Context::create(self.device))`;
the reference-counted wrapper adds nothing to the state behaviour. -/
def Device.create_context (o : Cuda) (st : DriverState) (tid : Nat) (d : Device) : Step Context :=
  Context.create o st tid d.device

/-- `Context::get_ref` (device.rs:245-247): a `ContextRef` holding the same
native handle value. -/
def Context.get_ref (c : Context) : ContextRef :=
  ⟨c.ptr⟩

/-- `impl PartialEq<ContextRef> for Context` (device.rs:154-158). -/
def Context.eqContextRef (c : Context) (r : ContextRef) : Bool :=
  c.ptr == r.ptr

/-- `impl PartialEq<Context> for ContextRef` (device.rs:160-164). -/
def ContextRef.eqContext (r : ContextRef) (c : Context) : Bool :=
  r.ptr == c.ptr

/-- `Context::sync` through the `ContextImpl` trait (`get_ptr` returns
`self.ptr`). -/
def Context.sync (o : Cuda) (st : DriverState) (tid : Nat) (c : Context) : Step Unit :=
  ContextImpl.sync o st tid c.ptr

/-- `ContextRef::sync` through the `ContextImpl` trait. -/
def ContextRef.sync (o : Cuda) (st : DriverState) (tid : Nat) (r : ContextRef) : Step Unit :=
  ContextImpl.sync o st tid r.ptr

/-- `impl Drop for Context` (device.rs:130-136): always calls
`cuCtxDestroy_v2`; a failure is logged (`log::error!`) and swallowed. -/
def Context.drop (o : Cuda) (st : DriverState) (c : Context) : Step Unit :=
  let r := cuCtxDestroy o st c.ptr
  match r.2 with
  | some e => .ok { r.1 with errorLog := e :: r.1.errorLog } ()
  | none => .ok r.1 ()

/-- `ContextGuard` (device.rs:85-87): remembers the context it pushed. -/
structure ContextGuard where
  ctx : Context

/-- `ContextGuard::guard_context` (device.rs:91-94): pushes the context and
wraps it. -/
def ContextGuard.guard_context (o : Cuda) (st : DriverState) (tid : Nat) (ctx : Context) :
    Step ContextGuard :=
  match ContextImpl.push o st tid ctx.ptr with
  | .fatal m => .fatal m
  | .err st1 e => .err st1 e
  | .ok st1 _ => .ok st1 ⟨ctx⟩

/-- `impl Drop for ContextGuard` (device.rs:97-101): `self.ctx.pop()`. -/
def ContextGuard.drop (o : Cuda) (st : DriverState) (tid : Nat) (g : ContextGuard) : Step Unit :=
  ContextImpl.pop o st tid g.ctx.ptr

/-- `Device::get_count` (device.rs:26-33): one-time driver `init` whose
failure is fatal, then `cuDeviceGetCount` whose failure is returned as an
error; on success the device count. -/
def Device.get_count (o : Cuda) (st : DriverState) : Step Nat :=
  if o.initFails then .fatal "Initialization of CUDA Driver API failed"
  else
    match o.getCountErr with
    | some e => .err st (AccelError.CudaError e)
    | none => .ok st st.deviceCount

/-- `Device::nth` (device.rs:35-42): `get_count()?`, range check returning
`DeviceNotFound { id, count }`, then `cuDeviceGet` (the handle for index
`id` is modelled as `id` itself). -/
def Device.nth (o : Cuda) (st : DriverState) (id : Nat) : Step Device :=
  match Device.get_count o st with
  | .fatal m => .fatal m
  | .err st1 e => .err st1 e
  | .ok st1 count =>
      if count ≤ id then .err st1 (AccelError.DeviceNotFound id count)
      else
        match o.deviceGetErr with
        | some e => .err st1 (AccelError.CudaError e)
        | none => .ok st1 ⟨id⟩

/-- `PageLockedMemory` (src/accel/src/memory/host.rs): pinned host
allocation of `size` elements tied to a context. -/
structure PageLockedMemory where
  ptr : Nat
  size : Nat
  context : Context
deriving DecidableEq, Repr

/-- `CudaMemory::len` for `PageLockedMemory` (host.rs:51-53): `self.size`. -/
def PageLockedMemory.len (m : PageLockedMemory) : Nat :=
  m.size

/-- `PageLockedMemory::new` (host.rs:71-81): `assert!(size > 0)`, guard the
context, `cuMemAllocHost_v2(size * size_of::<T>())` whose failure is fatal,
construct the value, and release the guard before returning.  `sizeofT`
stands for `std::mem::size_of::<T>()`. -/
def PageLockedMemory.new (o : Cuda) (st : DriverState) (tid : Nat) (context : Context)
    (size sizeofT : Nat) : Step PageLockedMemory :=
  if size = 0 then .fatal "Zero-sized malloc is forbidden"
  else
    match ContextGuard.guard_context o st tid context with
    | .fatal m => .fatal m
    | .err st1 e => .err st1 e
    | .ok st1 g =>
        match cuMemAllocHost o st1 (size * sizeofT) with
        | .error _ => .fatal "Cannot allocate page-locked memory"
        | .ok (st2, p) =>
            match ContextGuard.drop o st2 tid g with
            | .fatal m => .fatal m
            | .err st3 e => .err st3 e
            | .ok st3 _ => .ok st3 ⟨p, size, context⟩

/-- `impl Drop for PageLockedMemory` (host.rs:15-21): always calls
`cuMemFreeHost`; a failure is logged and swallowed. -/
def PageLockedMemory.drop (o : Cuda) (st : DriverState) (m : PageLockedMemory) : Step Unit :=
  let r := cuMemFreeHost o st m.ptr
  match r.2 with
  | some e => .ok { r.1 with errorLog := e :: r.1.errorLog } ()
  | none => .ok r.1 ()

/-- `Module` (src/src/module.rs): a loaded code object handle. -/
structure Module where
  ptr : Nat
deriving DecidableEq, Repr

/-- `impl Drop for Module` (module.rs:31-37): `cuModuleUnload(..).check().expect(..)`
— the unload is always attempted and any failure is fatal. -/
def Module.drop (o : Cuda) (st : DriverState) (m : Module) : Step Unit :=
  let r := cuModuleUnload o st m.ptr
  match r.2 with
  | some _ => .fatal "Failed to unload module"
  | none => .ok r.1 ()

/-- One byte of a UTF-8 continuation sequence (`0x80 ..= 0xBF`). -/
def contByte (b : Nat) : Bool :=
  0x80 ≤ b && b ≤ 0xBF

/-- Length of the UTF-8 sequence introduced by lead byte `b`: `2` for
`C2..DF`, `3` for `E0..EF`, `4` for `F0..F4`, and `0` for any byte that is
not a valid lead byte (`80..C1`, `F5..FF`). -/
def utf8Len (b : Nat) : Nat :=
  if 0xC2 ≤ b && b ≤ 0xDF then 2
  else if 0xE0 ≤ b && b ≤ 0xEF then 3
  else if 0xF0 ≤ b && b ≤ 0xF4 then 4
  else 0

/-- Lower bound of the first continuation byte after lead `b` (`A0` after
`E0`, `90` after `F0`, otherwise `80`). -/
def contLow (b : Nat) : Nat :=
  if b = 0xE0 then 0xA0 else if b = 0xF0 then 0x90 else 0x80

/-- Upper bound of the first continuation byte after lead `b` (`9F` after
`ED`, `8F` after `F4`, otherwise `BF`). -/
def contHigh (b : Nat) : Nat :=
  if b = 0xED then 0x9F else if b = 0xF4 then 0x8F else 0xBF

/-- The continuation bytes of one multi-byte sequence with lead `b`: the
first is restricted by `contLow`/`contHigh`, the others are plain
continuation bytes. -/
def utf8ContBytesOk (b : Nat) (cont : List Nat) : Bool :=
  match cont with
  | [] => false
  | c1 :: cs => (contLow b ≤ c1 && c1 ≤ contHigh b) && cs.all contByte

/-- UTF-8 validity with explicit fuel (any fuel of at least the list's
length computes the real answer, since every step consumes at least one
byte). -/
def validUtf8Fuel : Nat → List Nat → Bool
  | _, [] => true
  | 0, _ :: _ => false
  | fuel + 1, b :: rest =>
      if b ≤ 0x7F then validUtf8Fuel fuel rest
      else
        let n := utf8Len b
        if n = 0 then false
        else if rest.length < n - 1 then false
        else utf8ContBytesOk b (rest.take (n - 1)) && validUtf8Fuel fuel (rest.drop (n - 1))

/-- UTF-8 validity of a byte sequence, as checked by Rust's
`String::from_utf8` (device.rs:64): ASCII bytes and the standard 2-, 3- and
4-byte sequences with their restricted first-continuation ranges. -/
def isValidUtf8 (l : List Nat) : Bool :=
  validUtf8Fuel l.length l

/-- Model of the native `cuDeviceGetName`: writes the NUL-terminated device
name into the caller's buffer and leaves the remaining bytes untouched (the
crate pre-fills the buffer with zeros, so the terminator coincides with the
existing contents). -/
def cuDeviceGetName (name buf : List Nat) : List Nat :=
  if name.length < buf.length then name ++ buf.drop name.length else buf

/-- `Device::get_name` (device.rs:54-65): a 1024-byte zero-filled buffer is
handed to `cuDeviceGetName` (failure returned as an error), then the whole
buffer — all 1024 bytes — is converted with `String::from_utf8`, whose
failure is fatal (`expect "GPU name is not UTF8"`). -/
def Device.get_name (o : Cuda) (st : DriverState) (d : Device) : Step (List Nat) :=
  match o.getNameErr with
  | some e => .err st (AccelError.CudaError e)
  | none =>
      let bytes := cuDeviceGetName o.deviceName (List.replicate 1024 0)
      if isValidUtf8 bytes then .ok st bytes
      else .fatal "GPU name is not UTF8"

@[simp]
theorem DriverState.ctxStack_setStack (st : DriverState) (tid : Nat) (s : List Nat) (t : Nat) :
    (st.setStack tid s).ctxStack t = if t = tid then s else st.ctxStack t :=
  rfl

theorem ContextImpl.push_eq_ok (o : Cuda) (st : DriverState) (tid ptr : Nat)
    (hpush : o.pushErr = none) :
    ContextImpl.push o st tid ptr = Step.ok (st.setStack tid (ptr :: st.ctxStack tid)) () := by
  simp [ContextImpl.push, cuCtxPushCurrent, hpush]

theorem ContextImpl.pop_eq_ok (o : Cuda) (st : DriverState) (tid ptr : Nat) (rest : List Nat)
    (hpop : o.popErr = none) (hstack : st.ctxStack tid = ptr :: rest) (h0 : ptr ≠ 0) :
    ContextImpl.pop o st tid ptr = Step.ok (st.setStack tid rest) () := by
  simp [ContextImpl.pop, cuCtxPopCurrent, hpop, hstack, h0]

theorem ContextImpl.pop_empty (o : Cuda) (st : DriverState) (tid ptr : Nat)
    (hpop : o.popErr = none) (hstack : st.ctxStack tid = []) :
    ContextImpl.pop o st tid ptr = Step.fatal "No current context" := by
  simp [ContextImpl.pop, cuCtxPopCurrent, hpop, hstack]

theorem ContextImpl.pop_mismatch (o : Cuda) (st : DriverState) (tid ptr p : Nat)
    (rest : List Nat) (hpop : o.popErr = none) (hstack : st.ctxStack tid = p :: rest)
    (h0 : p ≠ 0) (hne : p ≠ ptr) :
    ContextImpl.pop o st tid ptr = Step.fatal "Pop must return same pointer" := by
  simp [ContextImpl.pop, cuCtxPopCurrent, hpop, hstack, h0, hne]

/-- C1: for every device, `Context::create` (and hence
`Device::create_context`) pushes the fresh native context implicitly and
immediately pops it: when creation returns normally, every thread's context
stack equals its pre-call state, and the returned context's handle is
current on no thread. -/
theorem context_create_nets_inactive (o : Cuda) (st : DriverState) (tid device : Nat)
    (hcreate : o.createErr = none) (hpop : o.popErr = none)
    (hfresh : ∀ t x, x ∈ st.ctxStack t → x ≤ st.nextPtr) :
    ∃ st' c, Context.create o st tid device = Step.ok st' c ∧
      (∀ t, st'.ctxStack t = st.ctxStack t) ∧ (∀ t, c.ptr ∉ st'.ctxStack t) := by
  set p := st.nextPtr + 1 with hp
  set st1 : DriverState :=
    { st with
        nextPtr := p
        liveCtxs := p :: st.liveCtxs
        ctxStack := fun t => if t = tid then p :: st.ctxStack t else st.ctxStack t } with hst1
  have hpopok : ContextImpl.pop o st1 tid p = Step.ok (st1.setStack tid (st.ctxStack tid)) () := by
    refine ContextImpl.pop_eq_ok o st1 tid p (st.ctxStack tid) hpop ?_ (Nat.succ_ne_zero _)
    simp [hst1]
  have hstacks : ∀ t, (st1.setStack tid (st.ctxStack tid)).ctxStack t = st.ctxStack t := by
    intro t
    by_cases h : t = tid
    · simp [h, DriverState.setStack]
    · simp [h, DriverState.setStack, hst1]
  refine ⟨st1.setStack tid (st.ctxStack tid), ⟨p⟩, ?_, hstacks, ?_⟩
  · unfold Context.create cuCtxCreate
    rw [hcreate]
    simp only [Nat.succ_ne_zero, if_false]
    rw [hpopok]
  · intro t
    rw [hstacks t]
    intro hmem
    have := hfresh t p hmem
    omega

/-- A concrete oracle on which every native call succeeds. -/
def oBase : Cuda :=
  ⟨false, none, none, none, [], none, none, none, none, none, none, none, none⟩

/-- A concrete oracle on which `cuCtxSynchronize` fails with code `700`
(an illegal-address device fault) and every other call succeeds. -/
def oSyncFail : Cuda :=
  ⟨false, none, none, none, [], none, none, none, some 700, none, none, none, none⟩

/-- A concrete driver state: one device, all context stacks empty, nothing
allocated. -/
def stBase : DriverState :=
  ⟨1, fun _ => ([] : List Nat), [], 0, [], [], [], [], []⟩

/-- Witness for C1: creating a context on device 0 from the empty concrete
state leaves every thread's stack empty and the new context current
nowhere. -/
theorem context_create_nets_inactive_witness :
    ∃ st' c, Context.create oBase stBase 0 0 = Step.ok st' c ∧
      (∀ t, st'.ctxStack t = stBase.ctxStack t) ∧ (∀ t, c.ptr ∉ st'.ctxStack t) :=
  context_create_nets_inactive oBase stBase 0 0 rfl rfl
    (by intro t x hx; simp [stBase] at hx)

/-- C2: dropping a `ContextGuard` performs exactly one pop of the thread's
context stack: when the top of the stack is the handle the guard pushed,
the pop succeeds and removes exactly that entry; a mismatched popped handle
is a fatal panic, and popping when nothing is current (a null handle is
popped) is also fatal. -/
theorem context_guard_drop_spec (o : Cuda) (st : DriverState) (tid : Nat) (g : ContextGuard)
    (hpop : o.popErr = none) :
    (st.ctxStack tid = [] →
      ContextGuard.drop o st tid g = Step.fatal "No current context") ∧
    (∀ p rest, st.ctxStack tid = p :: rest → p ≠ 0 → p ≠ g.ctx.ptr →
      ContextGuard.drop o st tid g = Step.fatal "Pop must return same pointer") ∧
    (∀ rest, st.ctxStack tid = g.ctx.ptr :: rest → g.ctx.ptr ≠ 0 →
      ContextGuard.drop o st tid g = Step.ok (st.setStack tid rest) ()) := by
  refine ⟨?_, ?_, ?_⟩
  · intro h
    exact ContextImpl.pop_empty o st tid g.ctx.ptr hpop h
  · intro p rest h h0 hne
    exact ContextImpl.pop_mismatch o st tid g.ctx.ptr p rest hpop h h0 hne
  · intro rest h h0
    exact ContextImpl.pop_eq_ok o st tid g.ctx.ptr rest hpop h h0

/-- Witness for C2: with handle `7` on top of the thread's stack, dropping
the guard that pushed `7` pops exactly that entry. -/
theorem context_guard_drop_spec_witness :
    ContextGuard.drop oBase (stBase.setStack 0 [7]) 0 ⟨⟨7⟩⟩ =
      Step.ok ((stBase.setStack 0 [7]).setStack 0 []) () :=
  (context_guard_drop_spec oBase (stBase.setStack 0 [7]) 0 ⟨⟨7⟩⟩ rfl).2.2 []
    rfl (by decide)

/-- Popping back the stack entry a `setStack` replaced restores the original
state (structure eta plus function extensionality on the stack map). -/
theorem DriverState.setStack_setStack_self (st : DriverState) (tid : Nat) (s : List Nat) :
    (st.setStack tid s).setStack tid (st.ctxStack tid) = st := by
  unfold DriverState.setStack
  congr 1
  funext t
  by_cases h : t = tid <;> simp [h]

/-- C3 counterexample: from the concrete empty-stack state, `sync` on the
context with handle `5` under an oracle whose native synchronize fails with
code `700` propagates the error while the thread's context stack is `[5]`,
not its pre-call value `[]` — the pushed context was not popped again. -/
theorem context_sync_not_restored_on_err :
    Context.sync oSyncFail stBase 0 ⟨5⟩ =
      Step.err (stBase.setStack 0 [5]) (AccelError.CudaError 700) ∧
    (stBase.setStack 0 [5]).ctxStack 0 ≠ stBase.ctxStack 0 := by
  constructor
  · rfl
  · decide

/-- C3 (amended): `sync` on a `Context` (and identically on a `ContextRef`)
pushes, synchronizes, pops.  When the native synchronize succeeds the
calling thread's stack is restored exactly to its pre-call state; when it
fails the error is propagated to the caller with the pushed context still
on the thread's stack — the pop is skipped on the early-return path. -/
theorem context_sync_spec (o : Cuda) (st : DriverState) (tid : Nat) (c : Context)
    (hpush : o.pushErr = none) (hpop : o.popErr = none) (hc : c.ptr ≠ 0) :
    (o.syncErr = none → Context.sync o st tid c = Step.ok st ()) ∧
    (∀ e, o.syncErr = some e →
      Context.sync o st tid c =
        Step.err (st.setStack tid (c.ptr :: st.ctxStack tid)) (AccelError.CudaError e)) ∧
    ContextRef.sync o st tid (Context.get_ref c) = Context.sync o st tid c := by
  have hpushok := ContextImpl.push_eq_ok o st tid c.ptr hpush
  refine ⟨?_, ?_, rfl⟩
  · intro hsync
    have hpop2 : ContextImpl.pop o (st.setStack tid (c.ptr :: st.ctxStack tid)) tid c.ptr
        = Step.ok st () := by
      have h := ContextImpl.pop_eq_ok o (st.setStack tid (c.ptr :: st.ctxStack tid)) tid
        c.ptr (st.ctxStack tid) hpop (by simp) hc
      rw [DriverState.setStack_setStack_self] at h
      exact h
    unfold Context.sync ContextImpl.sync
    rw [hpushok]
    simp [cuCtxSynchronize, hsync, hpop2]
  · intro e hsync
    unfold Context.sync ContextImpl.sync
    rw [hpushok]
    simp [cuCtxSynchronize, hsync]

/-- Witness for C3 (amended): a successful `sync` from the concrete state
returns it unchanged. -/
theorem context_sync_spec_witness :
    Context.sync oBase stBase 0 ⟨5⟩ = Step.ok stBase () :=
  (context_sync_spec oBase stBase 0 ⟨5⟩ rfl rfl (by decide)).1 rfl

/-- C4: `PageLockedMemory::new(ctx, 0)` is a fatal panic, not a recoverable
error; for every `size > 0` (with `sizeofT` standing for `size_of::<T>()`),
`new` requests exactly `size * sizeofT` bytes of pinned host memory, the
returned buffer's `len` is exactly `size`, and the context guard taken for
the allocation is released before `new` returns: every thread's context
stack equals its pre-call state. -/
theorem page_locked_memory_new_spec (o : Cuda) (st : DriverState) (tid : Nat)
    (context : Context) (size sizeofT : Nat)
    (hpush : o.pushErr = none) (hpop : o.popErr = none) (hc : context.ptr ≠ 0) :
    (size = 0 → PageLockedMemory.new o st tid context size sizeofT =
      Step.fatal "Zero-sized malloc is forbidden") ∧
    (0 < size → o.allocErr = none →
      ∃ st' m, PageLockedMemory.new o st tid context size sizeofT = Step.ok st' m ∧
        m.len = size ∧ (m.ptr, size * sizeofT) ∈ st'.hostAllocs ∧
        (∀ t, st'.ctxStack t = st.ctxStack t)) := by
  constructor
  · intro h
    simp [PageLockedMemory.new, h]
  · intro hsize halloc
    have hne : size ≠ 0 := Nat.pos_iff_ne_zero.mp hsize
    set st1 := st.setStack tid (context.ptr :: st.ctxStack tid) with hst1
    have hguard : ContextGuard.guard_context o st tid context = Step.ok st1 ⟨context⟩ := by
      unfold ContextGuard.guard_context
      rw [ContextImpl.push_eq_ok o st tid context.ptr hpush]
    set st2 : DriverState :=
      { st1 with
          nextPtr := st1.nextPtr + 1
          hostAllocs := (st1.nextPtr + 1, size * sizeofT) :: st1.hostAllocs } with hst2
    have hallocok : cuMemAllocHost o st1 (size * sizeofT) =
        Except.ok (st2, st1.nextPtr + 1) := by
      simp [cuMemAllocHost, halloc, hst2]
    have hdrop : ContextGuard.drop o st2 tid ⟨context⟩ =
        Step.ok (st2.setStack tid (st.ctxStack tid)) () := by
      unfold ContextGuard.drop
      refine ContextImpl.pop_eq_ok o st2 tid context.ptr (st.ctxStack tid) hpop ?_ hc
      simp [hst2, hst1, DriverState.setStack]
    refine ⟨st2.setStack tid (st.ctxStack tid), ⟨st1.nextPtr + 1, size, context⟩, ?_, rfl, ?_, ?_⟩
    · simp only [PageLockedMemory.new, if_neg hne, hguard, hallocok, hdrop]
    · simp [DriverState.setStack, hst2]
    · intro t
      by_cases h : t = tid <;> simp [DriverState.setStack, hst2, hst1, h]

/-- Witness for C4: both conjuncts at a concrete input — `new` of 3 elements
of a 4-byte type from the empty state under the all-success oracle. -/
theorem page_locked_memory_new_spec_witness :
    PageLockedMemory.new oBase stBase 0 ⟨9⟩ 0 4 = Step.fatal "Zero-sized malloc is forbidden" ∧
    ∃ st' m, PageLockedMemory.new oBase stBase 0 ⟨9⟩ 3 4 = Step.ok st' m ∧
      m.len = 3 ∧ (m.ptr, 3 * 4) ∈ st'.hostAllocs ∧
      (∀ t, st'.ctxStack t = stBase.ctxStack t) :=
  ⟨(page_locked_memory_new_spec oBase stBase 0 ⟨9⟩ 0 4 rfl rfl (by decide)).1 rfl,
   (page_locked_memory_new_spec oBase stBase 0 ⟨9⟩ 3 4 rfl rfl (by decide)).2
     (by decide) rfl⟩

/-- C5: `Device::nth(id)` returns `DeviceNotFound { id, count }` exactly
when `id` is at least the device count, and for `id < count` it succeeds
with a handle for the `id`-th device without touching the state, so an
immediately repeated call succeeds as well and yields a handle for the same
physical device. -/
theorem device_nth_spec (o : Cuda) (st : DriverState) (id : Nat)
    (hinit : o.initFails = false) (hcount : o.getCountErr = none)
    (hget : o.deviceGetErr = none) :
    (st.deviceCount ≤ id →
      Device.nth o st id = Step.err st (AccelError.DeviceNotFound id st.deviceCount)) ∧
    (id < st.deviceCount →
      ∃ st1 d1, Device.nth o st id = Step.ok st1 d1 ∧ d1.device = id ∧
        ∃ d2, Device.nth o st1 id = Step.ok st1 d2 ∧ d2.device = d1.device) := by
  have hgc : Device.get_count o st = Step.ok st st.deviceCount := by
    simp [Device.get_count, hinit, hcount]
  constructor
  · intro h
    unfold Device.nth
    rw [hgc]
    simp [h]
  · intro h
    have hnotle : ¬ st.deviceCount ≤ id := Nat.not_le.mpr h
    refine ⟨st, ⟨id⟩, ?_, rfl, ⟨id⟩, ?_, rfl⟩ <;>
      · unfold Device.nth
        rw [hgc]
        simp [hnotle, hget]

/-- Witness for C5: on the concrete one-device state, `nth 3` fails with
`DeviceNotFound 3 1` and `nth 0` succeeds twice with the same index. -/
theorem device_nth_spec_witness :
    Device.nth oBase stBase 3 = Step.err stBase (AccelError.DeviceNotFound 3 1) ∧
    ∃ st1 d1, Device.nth oBase stBase 0 = Step.ok st1 d1 ∧ d1.device = 0 ∧
      ∃ d2, Device.nth oBase st1 0 = Step.ok st1 d2 ∧ d2.device = d1.device :=
  ⟨(device_nth_spec oBase stBase 3 rfl rfl rfl).1 (by decide),
   (device_nth_spec oBase stBase 0 rfl rfl rfl).2 (by decide)⟩

/-- C6: equality between `Context` and `ContextRef` is cross-type native
handle identity in both directions — `c == r` holds exactly when the two
handles are equal, the relation is symmetric, and `c.get_ref()` always
compares equal to `c`. -/
theorem context_eq_cross_type (c : Context) (r : ContextRef) :
    (Context.eqContextRef c r = true ↔ c.ptr = r.ptr) ∧
    ContextRef.eqContext r c = Context.eqContextRef c r ∧
    Context.eqContextRef c (Context.get_ref c) = true := by
  refine ⟨?_, ?_, ?_⟩
  · simp [Context.eqContextRef]
  · by_cases h : c.ptr = r.ptr
    · simp [Context.eqContextRef, ContextRef.eqContext, h]
    · have h2 : r.ptr ≠ c.ptr := fun hh => h hh.symm
      simp [Context.eqContextRef, ContextRef.eqContext, h, h2]
  · simp [Context.eqContextRef, Context.get_ref]

/-- C7: dropping a `Context` and dropping a `PageLockedMemory` always issue
the native destroy/free call, never panic and never surface an error to the
caller: the result is a normal return on every oracle, with any native
failure code appended to the log and nothing else. -/
theorem teardown_logs_and_swallows (o : Cuda) (st : DriverState) (c : Context)
    (m : PageLockedMemory) :
    (∃ st', Context.drop o st c = Step.ok st' () ∧ c.ptr ∈ st'.destroyAttempts ∧
      st'.errorLog = o.destroyErr.toList ++ st.errorLog) ∧
    (∃ st', PageLockedMemory.drop o st m = Step.ok st' () ∧ m.ptr ∈ st'.freeAttempts ∧
      st'.errorLog = o.freeErr.toList ++ st.errorLog) := by
  constructor
  · cases hd : o.destroyErr with
    | none =>
        simp only [Context.drop, cuCtxDestroy, hd]
        exact ⟨_, rfl, by simp, by simp⟩
    | some e =>
        simp only [Context.drop, cuCtxDestroy, hd]
        exact ⟨_, rfl, by simp, by simp⟩
  · cases hf : o.freeErr with
    | none =>
        simp only [PageLockedMemory.drop, cuMemFreeHost, hf]
        exact ⟨_, rfl, by simp, by simp⟩
    | some e =>
        simp only [PageLockedMemory.drop, cuMemFreeHost, hf]
        exact ⟨_, rfl, by simp, by simp⟩

/-- C8: dropping a `Module` always attempts the native unload; on success it
returns normally with the attempt recorded, but a native unload failure is a
fatal panic — unlike the logged-and-swallowed teardown of `Context` and
`PageLockedMemory`. -/
theorem module_drop_unload_fatal (o : Cuda) (st : DriverState) (m : Module) :
    (o.unloadErr = none →
      ∃ st', Module.drop o st m = Step.ok st' () ∧ m.ptr ∈ st'.unloadAttempts) ∧
    (∀ e, o.unloadErr = some e →
      Module.drop o st m = Step.fatal "Failed to unload module") := by
  constructor
  · intro h
    simp only [Module.drop, cuModuleUnload, h]
    exact ⟨_, rfl, by simp⟩
  · intro e h
    simp [Module.drop, cuModuleUnload, h]

/-- A concrete oracle on which `cuModuleUnload` fails with code `709`
(context destroyed while the module was still loaded). -/
def oUnloadFail : Cuda :=
  ⟨false, none, none, none, [], none, none, none, none, none, none, none, some 709⟩

/-- Witness for C8: at concrete inputs, a successful unload returns normally
with the attempt recorded, and a failing unload is the fatal panic. -/
theorem module_drop_unload_fatal_witness :
    (∃ st', Module.drop oBase stBase ⟨11⟩ = Step.ok st' () ∧ 11 ∈ st'.unloadAttempts) ∧
    Module.drop oUnloadFail stBase ⟨11⟩ = Step.fatal "Failed to unload module" :=
  ⟨(module_drop_unload_fatal oBase stBase ⟨11⟩).1 rfl,
   (module_drop_unload_fatal oUnloadFail stBase ⟨11⟩).2 709 rfl⟩

/-- Any list of ASCII bytes is valid UTF-8. -/
theorem isValidUtf8_of_ascii (l : List Nat) (h : ∀ b ∈ l, b < 128) :
    isValidUtf8 l = true := by
  induction l with
  | nil => rfl
  | cons b rest ih =>
      have hb : b ≤ 0x7F := by
        have := h b (List.mem_cons_self b rest)
        omega
      show validUtf8Fuel (b :: rest).length (b :: rest) = true
      rw [List.length_cons, validUtf8Fuel, if_pos hb]
      exact ih (fun x hx => h x (List.mem_cons_of_mem _ hx))

/-- C10: whenever `Device::get_name` succeeds it returns the entire fixed
1024-byte buffer as a string: the device name followed by NUL padding up to
1024 bytes — the result is never trimmed at the first NUL to the name's
actual length. -/
theorem device_get_name_whole_buffer (o : Cuda) (st : DriverState) (d : Device)
    (herr : o.getNameErr = none) (hlen : o.deviceName.length < 1024)
    (hascii : ∀ b ∈ o.deviceName, b < 128) :
    Device.get_name o st d =
      Step.ok st (o.deviceName ++ List.replicate (1024 - o.deviceName.length) 0) ∧
    (o.deviceName ++ List.replicate (1024 - o.deviceName.length) 0).length = 1024 := by
  have hbytes : cuDeviceGetName o.deviceName (List.replicate 1024 0) =
      o.deviceName ++ List.replicate (1024 - o.deviceName.length) 0 := by
    unfold cuDeviceGetName
    rw [if_pos (by rw [List.length_replicate]; exact hlen), List.drop_replicate]
  have hvalid :
      isValidUtf8 (o.deviceName ++ List.replicate (1024 - o.deviceName.length) 0) = true := by
    apply isValidUtf8_of_ascii
    intro b hb
    rcases List.mem_append.mp hb with h | h
    · exact hascii b h
    · have := List.eq_of_mem_replicate h
      omega
  constructor
  · unfold Device.get_name
    rw [herr]
    simp only [hbytes]
    rw [if_pos hvalid]
  · simp only [List.length_append, List.length_replicate]
    omega

/-- A concrete oracle whose device reports the ASCII name "GPU". -/
def oName : Cuda :=
  ⟨false, none, none, none, [71, 80, 85], none, none, none, none, none, none, none, none⟩

/-- Witness for C10: the concrete three-byte name "GPU" comes back as a
1024-byte string padded with NULs. -/
theorem device_get_name_whole_buffer_witness :
    Device.get_name oName stBase ⟨0⟩ =
      Step.ok stBase (oName.deviceName ++ List.replicate (1024 - oName.deviceName.length) 0) ∧
    (oName.deviceName ++ List.replicate (1024 - oName.deviceName.length) 0).length = 1024 :=
  device_get_name_whole_buffer oName stBase ⟨0⟩ rfl (by decide) (by decide)
